import Mathlib

/-!
# Shallow embedding of the `Coverflow` widget (src/src/Coverflow.tsx)

Pixel quantities (scroll offsets, pointer coordinates, velocities, times)
are modelled as rationals `ℚ`.  JavaScript `Math.round` is `⌊x + 1/2⌋`
(round half towards +∞), modelled by `jsRound`.  The DOM viewport
(`containerRef.current`) is modelled by a boolean `hasContainer` plus a
scalar `scrollLeft`; the repository's own test harness
(src/src/Coverflow.test.tsx) mocks `scrollLeft` as a plain writable number
with no browser clamping, and we follow it.  `document.elementFromPoint`
followed by `.closest('.card')` and `parseInt(dataset.index)` is a
host-provided hit test, modelled as an `Option ℤ` input to `onPointerUp`
(`none` covers "no card found" and the `isNaN` branch alike).
`requestAnimationFrame` scheduling is modelled by an explicit
`Option Anim` slot (`scrollRafRef` holds at most one pending callback)
together with a `frame` event carrying the callback's timestamp.
-/

namespace Coverflow

/-- JavaScript `Math.round`: round half towards positive infinity. -/
def jsRound (q : ℚ) : ℤ := ⌊q + 1/2⌋

/-- JavaScript array indexing `xs[i]` at a possibly out-of-range signed
index: `undefined` (here `none`) outside `[0, length)`. -/
def jsIndex (xs : List α) (i : ℤ) : Option α :=
  if 0 ≤ i then xs[i.toNat]? else none

/-- `AlbumItem` from Coverflow.tsx: `{ image_url, title, artists? }`. -/
structure AlbumItem where
  image_url : String
  title : String
  artists : Option String
deriving DecidableEq, Repr

/-- The two easing functions defined in Coverflow.tsx. -/
inductive Easing where
  | outCubic
  | inQuad
deriving DecidableEq, Repr

/-- `easeOutCubic = 1 - (1-t)^3`, `easeInQuad = t * t`. -/
def Easing.eval : Easing → ℚ → ℚ
  | .outCubic, t => 1 - (1 - t) ^ 3
  | .inQuad, t => t * t

/-- `DRAG_THRESHOLD = 10`. -/
def DRAG_THRESHOLD : ℚ := 10

/-- `MOMENTUM_MULTIPLIER = 200`. -/
def MOMENTUM_MULTIPLIER : ℚ := 200

/-- The behaviour-relevant props of the component (presentation-only props
such as icons and class names are omitted; defaults as destructured). -/
structure Props where
  items : List AlbumItem
  imgWidth : ℚ := 200
  overlapFactor : ℚ := 8/10
  initCenter : Bool := false
deriving DecidableEq, Repr

/-- `scrollStep = imgWidth * overlapFactor` (line 140). -/
def Props.scrollStep (c : Props) : ℚ := c.imgWidth * c.overlapFactor

/-- `DragState` of Coverflow.tsx.  `hasMoved` is optional in the source
(`hasMoved?: boolean`) and only ever compared truthily, so the initial
`undefined` is modelled as `false`. -/
structure DragState where
  isDown : Bool
  startX : ℚ
  scrollLeft : ℚ
  hasMoved : Bool
  lastX : ℚ
  lastT : ℚ
  velocity : ℚ
deriving DecidableEq, Repr

/-- Initial value of `dragRef` (lines 65-72). -/
def DragState.init : DragState :=
  { isDown := false, startX := 0, scrollLeft := 0, hasMoved := false
    lastX := 0, lastT := 0, velocity := 0 }

/-- An in-flight `smoothScrollTo` animation: the closure state captured at
start (`start`, `change`, `startTime`, `duration`, `easingFn`) held alive
through the `scrollRafRef` registration. -/
structure Anim where
  start : ℚ
  change : ℚ
  startTime : ℚ
  duration : ℚ
  easing : Easing
deriving DecidableEq, Repr

/-- The mutable state of one component instance: the viewport's scroll
position, the drag ref, and the (at most one) pending animation. -/
structure State where
  hasContainer : Bool
  scrollLeft : ℚ
  drag : DragState
  anim : Option Anim
deriving DecidableEq, Repr

/-- State at first render: `scrollLeft = 0`, drag ref at its initial
value, no animation scheduled. -/
def State.init (hasContainer : Bool) : State :=
  { hasContainer := hasContainer, scrollLeft := 0
    drag := DragState.init, anim := none }

/-- Observable callback invocations: `onItemClick(items[i])`; `none` is
JavaScript `undefined` (out-of-range index). -/
inductive Effect where
  | notify (item : Option AlbumItem)
deriving DecidableEq, Repr

/-- `stopActiveScroll` (lines 105-110): cancel the pending frame callback. -/
def stopActiveScroll (s : State) : State := { s with anim := none }

/-- `smoothScrollTo(target, duration, easingFn)` (lines 112-138): bail out
without a container; otherwise cancel any active animation and register a
fresh one starting from the live `scrollLeft` at time `now`. -/
def smoothScrollTo (target duration : ℚ) (easing : Easing) (now : ℚ)
    (s : State) : State :=
  if s.hasContainer then
    let s := stopActiveScroll s
    let a : Anim :=
      { start := s.scrollLeft, change := target - s.scrollLeft
        startTime := now, duration := duration, easing := easing }
    { s with anim := some a }
  else s

/-- One invocation of the `animateScroll` frame callback (lines 123-135)
at time `t`; no-op when no callback is registered. -/
def frameStep (t : ℚ) (s : State) : State :=
  match s.anim with
  | none => s
  | some a =>
    let elapsed := t - a.startTime
    let progress := min (elapsed / a.duration) 1
    let eased := a.easing.eval progress
    let s := { s with scrollLeft := a.start + a.change * eased }
    if elapsed < a.duration then s else { s with anim := none }

/-- `getCurrentIndex` (lines 142-147): `Math.round(scrollLeft/scrollStep)`,
`0` without a container.  Note: the source applies no clamping here. -/
def getCurrentIndex (c : Props) (s : State) : ℤ :=
  if s.hasContainer then jsRound (s.scrollLeft / c.scrollStep) else 0

/-- `selectCard(index, easingFn)` (lines 149-153): animate to
`index * scrollStep` over 600 and invoke `onItemClick(items[index])`. -/
def selectCard (c : Props) (i : ℤ) (easing : Easing) (now : ℚ)
    (s : State) : State × List Effect :=
  (smoothScrollTo (i * c.scrollStep) 600 easing now s,
   [Effect.notify (jsIndex c.items i)])

/-- `scrollNext` (lines 155-162). -/
def scrollNext (c : Props) (now : ℚ) (s : State) : State × List Effect :=
  let currentIndex := getCurrentIndex c s
  let nextIndex := min (currentIndex + 1) ((c.items.length : ℤ) - 1)
  if nextIndex ≠ currentIndex then selectCard c nextIndex .outCubic now s
  else (s, [])

/-- `scrollPrev` (lines 164-171). -/
def scrollPrev (c : Props) (now : ℚ) (s : State) : State × List Effect :=
  let currentIndex := getCurrentIndex c s
  let prevIndex := max (currentIndex - 1) 0
  if prevIndex ≠ currentIndex then selectCard c prevIndex .outCubic now s
  else (s, [])

/-- `handleCardClick` (lines 173-180): ignored while `hasMoved`, else a
direct selection with the ease-in-quadratic curve. -/
def handleCardClick (c : Props) (i : ℤ) (now : ℚ) (s : State) :
    State × List Effect :=
  if s.drag.hasMoved then (s, []) else selectCard c i .inQuad now s

/-- `onKeyDown` (lines 182-185): arrow keys delegate to Prev/Next. -/
def onKeyDown (c : Props) (key : String) (now : ℚ) (s : State) :
    State × List Effect :=
  if key = "ArrowLeft" then scrollPrev c now s
  else if key = "ArrowRight" then scrollNext c now s
  else (s, [])

/-- `onPointerDown` (lines 189-207) with pointer x-coordinate `x` at time
`now`: cancel any animation and open a fresh drag session. -/
def onPointerDown (x now : ℚ) (s : State) : State :=
  if s.hasContainer then
    let s := stopActiveScroll s
    { s with drag :=
        { isDown := true, startX := x, scrollLeft := s.scrollLeft
          hasMoved := false, lastX := x, lastT := now, velocity := 0 } }
  else s

/-- `onPointerMove` (lines 209-233): guarded on an active session and a
container; resample velocity when more than 10 time-units have passed,
latch `hasMoved` past the 10-pixel threshold, and drag the viewport 1:1. -/
def onPointerMove (x now : ℚ) (s : State) : State :=
  if s.drag.isDown ∧ s.hasContainer then
    let state := s.drag
    let dt := now - state.lastT
    let state :=
      if dt > 10 then
        { state with velocity := (x - state.lastX) / dt, lastX := x
                     lastT := now }
      else state
    let totalDx := x - state.startX
    let state :=
      if |totalDx| > DRAG_THRESHOLD then { state with hasMoved := true }
      else state
    { s with drag := state, scrollLeft := state.scrollLeft - totalDx }
  else s

/-- `onPointerUp` (lines 235-283).  `hit` is the card index resolved by
the host hit test under the release point (`none`: no card, or a
non-numeric `data-index`).  Returns the new state and the callback
invocations the handler makes. -/
def onPointerUp (c : Props) (hit : Option ℤ) (now : ℚ) (s : State) :
    State × List Effect :=
  if s.drag.isDown ∧ s.hasContainer then
    let s := { s with drag := { s.drag with isDown := false } }
    if ¬ s.drag.hasMoved then
      match hit with
      | some i => handleCardClick c i now s
      | none => (s, [])
    else
      let velocity := s.drag.velocity
      if |velocity| > 1/10 then
        let projected := s.scrollLeft - velocity * MOMENTUM_MULTIPLIER
        let target := (jsRound (projected / c.scrollStep) : ℚ) * c.scrollStep
        let distance := |target - s.scrollLeft|
        let duration := min 1500 (max 800 (distance * 3/2))
        (smoothScrollTo target duration .outCubic now s, [])
      else
        let target := (jsRound (s.scrollLeft / c.scrollStep) : ℚ) * c.scrollStep
        (smoothScrollTo target 500 .outCubic now s, [])
  else (s, [])

/-- The scroll/selection part of the mount effect (lines 92-102): when a
container exists and `items` is nonempty, optionally jump (no animation)
to the centre index, then notify the initially selected item. -/
def mount (c : Props) (s : State) : State × List Effect :=
  if s.hasContainer ∧ 0 < c.items.length then
    let startIndex : ℤ := if c.initCenter then (c.items.length : ℤ) / 2 else 0
    let s := if c.initCenter
      then { s with scrollLeft := startIndex * c.scrollStep } else s
    (s, [Effect.notify (jsIndex c.items startIndex)])
  else (s, [])

/-- The discrete inputs a component instance reacts to: the mount effect,
pointer events (x-coordinate and timestamp), key presses, the two nav
buttons, and animation-frame callbacks. -/
inductive Ev where
  | mount
  | pointerDown (x t : ℚ)
  | pointerMove (x t : ℚ)
  | pointerUp (hit : Option ℤ) (t : ℚ)
  | keyDown (key : String) (t : ℚ)
  | clickNext (t : ℚ)
  | clickPrev (t : ℚ)
  | frame (t : ℚ)
deriving DecidableEq

/-- Dispatch one event to the corresponding handler. -/
def step (c : Props) (s : State) : Ev → State × List Effect
  | .mount => mount c s
  | .pointerDown x t => (onPointerDown x t s, [])
  | .pointerMove x t => (onPointerMove x t s, [])
  | .pointerUp hit t => onPointerUp c hit t s
  | .keyDown key t => onKeyDown c key t s
  | .clickNext t => scrollNext c t s
  | .clickPrev t => scrollPrev c t s
  | .frame t => (frameStep t s, [])

/-- Run a sequence of events, keeping the final state. -/
def run (c : Props) (evs : List Ev) (s : State) : State :=
  evs.foldl (fun s e => (step c s e).1) s

/-- Run a sequence of events, collecting every callback invocation. -/
def runEffects (c : Props) (evs : List Ev) (s : State) : List Effect :=
  (evs.foldl (fun p e =>
    let r := step c p.1 e
    (r.1, p.2 ++ r.2)) (s, ([] : List Effect))).2

/-- A settled state: no animation in flight and no active drag session. -/
def settled (s : State) : Prop := s.anim = none ∧ s.drag.isDown = false

instance (s : State) : Decidable (settled s) := by
  unfold settled; infer_instance

/-- `x` lies on the step grid: an integer multiple of the step extent. -/
def onGrid (c : Props) (x : ℚ) : Prop := ∃ k : ℤ, x = k * c.scrollStep

/-! ## Basic facts about the model -/

/-- `Math.round` of an integer is itself. -/
theorem jsRound_intCast (i : ℤ) : jsRound (i : ℚ) = i := by
  unfold jsRound
  rw [Int.floor_int_add]
  norm_num

/-- `Math.round` of a nonnegative rational is nonnegative. -/
theorem jsRound_nonneg {q : ℚ} (h : 0 ≤ q) : 0 ≤ jsRound q := by
  unfold jsRound
  rw [Int.le_floor]
  push_cast
  linarith

/-- `Math.round` never exceeds an integer upper bound of its argument. -/
theorem jsRound_le {q : ℚ} {m : ℤ} (h : q ≤ m) : jsRound q ≤ m := by
  unfold jsRound
  rw [Int.floor_le_iff]
  linarith

/-- Both easing curves evaluate to `1` at `t = 1` (animations land exactly
on their target). -/
theorem Easing.eval_one (e : Easing) : e.eval 1 = 1 := by
  cases e <;> simp [Easing.eval]

/-! ## Fixtures: a concrete three-item configuration with the default
layout (`imgWidth = 200`, `overlapFactor = 0.8`, hence `scrollStep = 160`),
matching the repository's own test suite. -/

def album1 : AlbumItem := ⟨"url1", "Album 1", some "Artist 1"⟩

def album2 : AlbumItem := ⟨"url2", "Album 2", some "Artist 2"⟩

def album3 : AlbumItem := ⟨"url3", "Album 3", some "Artist 3"⟩

def cfg3 : Props := { items := [album1, album2, album3] }

def cfgEmpty : Props := { items := [] }

/-- A rest state with the container attached and a given scroll offset. -/
def restAt (x : ℚ) : State := { State.init true with scrollLeft := x }

/-! ## C3: the index-for-offset mapping -/

/-- C3 (counterexample): `getCurrentIndex` does NOT clamp.  With three
items (`stepExtent = 160`) and `scrollOffset = 1600`, which exceeds
`(itemCount-1) * stepExtent = 320`, the source returns
`round(1600/160) = 10`, not `itemCount - 1 = 2`. -/
theorem getCurrentIndex_not_clamped :
    ((cfg3.items.length : ℚ) - 1) * cfg3.scrollStep < (restAt 1600).scrollLeft ∧
    getCurrentIndex cfg3 (restAt 1600) = 10 ∧
    getCurrentIndex cfg3 (restAt 1600) ≠ (cfg3.items.length : ℤ) - 1 := by
  refine ⟨by norm_num [cfg3, Props.scrollStep, restAt, State.init], ?_, ?_⟩ <;>
    simp [getCurrentIndex, restAt, State.init, cfg3, Props.scrollStep, jsRound] <;>
    norm_num

/-- C3 (amended): `getCurrentIndex` computes `round(scrollOffset /
stepExtent)` with no clamping; the result lies in `[0, itemCount-1]`
whenever the offset itself lies in `[0, (itemCount-1)*stepExtent]`, but
for larger offsets it exceeds `itemCount - 1`. -/
theorem getCurrentIndex_in_range (c : Props) (s : State)
    (hc : s.hasContainer = true) (hstep : 0 < c.scrollStep)
    (h0 : 0 ≤ s.scrollLeft)
    (h1 : s.scrollLeft ≤ ((c.items.length : ℚ) - 1) * c.scrollStep) :
    0 ≤ getCurrentIndex c s ∧
    getCurrentIndex c s ≤ (c.items.length : ℤ) - 1 := by
  simp only [getCurrentIndex, hc, if_true]
  constructor
  · exact jsRound_nonneg (div_nonneg h0 hstep.le)
  · apply jsRound_le
    rw [div_le_iff₀ hstep]
    push_cast
    linarith

/-- C3 witness: the amended range bound at offset `160` in `cfg3`. -/
theorem getCurrentIndex_in_range_witness :
    0 ≤ getCurrentIndex cfg3 (restAt 160) ∧
    getCurrentIndex cfg3 (restAt 160) ≤ (cfg3.items.length : ℤ) - 1 :=
  getCurrentIndex_in_range cfg3 (restAt 160) rfl
    (by norm_num [cfg3, Props.scrollStep])
    (by norm_num [restAt, State.init])
    (by norm_num [cfg3, Props.scrollStep, restAt, State.init])

/-! ## C6: index/offset round trip -/

/-- C6: for a valid index `i` with positive step extent, the offset
`i * stepExtent` produced by `selectCard` maps back through
`getCurrentIndex` to exactly `i`, and clamping `i` to the valid range
leaves it unchanged. -/
theorem index_offset_round_trip (c : Props) (s : State) (i : ℤ)
    (hc : s.hasContainer = true) (hs : s.scrollLeft = i * c.scrollStep)
    (hstep : 0 < c.scrollStep) (h0 : 0 ≤ i)
    (h1 : i ≤ (c.items.length : ℤ) - 1) :
    getCurrentIndex c s = i ∧
    max 0 (min i ((c.items.length : ℤ) - 1)) = i := by
  refine ⟨?_, by omega⟩
  simp only [getCurrentIndex, hc, if_true, hs]
  rw [mul_div_cancel_right₀ _ (ne_of_gt hstep)]
  exact jsRound_intCast i

/-- C6 witness: index `1` in `cfg3` (offset `160`) round-trips. -/
theorem index_offset_round_trip_witness :
    getCurrentIndex cfg3 (restAt 160) = 1 ∧
    max 0 (min 1 ((cfg3.items.length : ℤ) - 1)) = 1 :=
  index_offset_round_trip cfg3 (restAt 160) 1 rfl
    (by norm_num [restAt, State.init, cfg3, Props.scrollStep])
    (by norm_num [cfg3, Props.scrollStep]) (by norm_num) (by decide)

/-! ## C8: edge no-ops for Next/Previous -/

/-- C8: when the index resolved from the current offset is the last valid
index, `scrollNext` returns the state unchanged with no callback
invocation and no animation start; symmetrically `scrollPrev` at resolved
index `0` is a no-op. -/
theorem next_prev_edge_noop (c : Props) (now : ℚ) (s : State) :
    (getCurrentIndex c s = (c.items.length : ℤ) - 1 →
      scrollNext c now s = (s, [])) ∧
    (getCurrentIndex c s = 0 → scrollPrev c now s = (s, [])) := by
  constructor
  · intro h
    have hm : min ((c.items.length : ℤ) - 1 + 1) ((c.items.length : ℤ) - 1) =
        (c.items.length : ℤ) - 1 := min_eq_right (by omega)
    simp only [scrollNext, h, hm, ne_eq, not_true_eq_false, if_false]
  · intro h
    simp only [scrollPrev, h, zero_sub, ne_eq]
    have hm : max (-1 : ℤ) 0 = 0 := by omega
    simp only [hm, not_true_eq_false, if_false]

/-- C8 witness: in `cfg3`, Next at offset `320` (index 2, the last) and
Previous at offset `0` (index 0) are both no-ops. -/
theorem next_prev_edge_noop_witness :
    scrollNext cfg3 0 (restAt 320) = (restAt 320, []) ∧
    scrollPrev cfg3 0 (restAt 0) = (restAt 0, []) :=
  ⟨(next_prev_edge_noop cfg3 0 (restAt 320)).1
    (by simp [getCurrentIndex, restAt, State.init, cfg3, Props.scrollStep,
        jsRound]; norm_num),
   (next_prev_edge_noop cfg3 0 (restAt 0)).2
    (by simp [getCurrentIndex, restAt, State.init, cfg3, Props.scrollStep,
        jsRound]; norm_num)⟩

/-! ## C10: guarded pointer handlers -/

/-- C10: a pointer-move or pointer-up arriving with no active drag session
(`isDown = false`) or no attached container changes nothing — the state
(scroll offset, drag record, animation slot) is returned untouched and no
callback is invoked. -/
theorem pointer_event_guard_noop (c : Props) (hit : Option ℤ) (x now : ℚ)
    (s : State) (h : s.drag.isDown = false ∨ s.hasContainer = false) :
    onPointerMove x now s = s ∧ onPointerUp c hit now s = (s, []) := by
  rcases h with h | h <;> exact ⟨by simp [onPointerMove, h], by simp [onPointerUp, h]⟩

/-- C10 witness: at a rest state (no drag session) both handlers are
no-ops. -/
theorem pointer_event_guard_noop_witness :
    onPointerMove 3 7 (restAt 5) = restAt 5 ∧
    onPointerUp cfg3 none 7 (restAt 5) = (restAt 5, []) :=
  pointer_event_guard_noop cfg3 none 3 7 (restAt 5) (Or.inl rfl)

/-! ## C2: tap gestures whose hit test finds no card -/

/-- A rest state at offset `100` with an open drag session (as left by a
pointer-down followed by sub-threshold movement is irrelevant here). -/
def sDown100 : State :=
  { restAt 100 with drag := { DragState.init with isDown := true } }

/-- C2 (counterexample): a tap gesture with a sub-threshold pointer drift
is NOT a complete no-op.  From rest at offset `100`, the gesture
pointer-down at `x = 0`, pointer-move to `x = 5` (below the 10px
threshold, so `hasMoved` stays `false`), pointer-up with no card under
the point leaves `scrollOffset = 95 ≠ 100`: the 1:1 drag applied during
pointer-move is never undone.  No animation and no callback occur. -/
theorem tap_no_hit_drift_counterexample :
    (run cfg3 [Ev.pointerDown 0 0, Ev.pointerMove 5 20, Ev.pointerUp none 40]
      (restAt 100)).scrollLeft = 95 ∧
    (restAt 100).scrollLeft = 100 ∧
    (run cfg3 [Ev.pointerDown 0 0, Ev.pointerMove 5 20, Ev.pointerUp none 40]
      (restAt 100)).drag.hasMoved = false ∧
    settled (run cfg3 [Ev.pointerDown 0 0, Ev.pointerMove 5 20,
      Ev.pointerUp none 40] (restAt 100)) ∧
    runEffects cfg3 [Ev.pointerDown 0 0, Ev.pointerMove 5 20,
      Ev.pointerUp none 40] (restAt 100) = [] := by
  refine ⟨?_, rfl, ?_, ?_, ?_⟩ <;>
    simp [run, runEffects, step, onPointerDown, onPointerMove, onPointerUp,
      stopActiveScroll, restAt, State.init, DragState.init, DRAG_THRESHOLD,
      settled] <;> norm_num

/-- C2 (amended): on pointer-up of a tap (`hasMoved = false`) whose hit
test finds no card, the pointer-up itself changes nothing except closing
the drag session: no animation is started, no callback is invoked, and
`scrollOffset` stays where the gesture's (possibly sub-threshold) drag
left it; in particular a gesture with no intermediate pointer-move leaves
`scrollOffset` equal to its value before pointer-down, settled, with no
callback. -/
theorem tap_no_hit_noop (c : Props) (now x t : ℚ) (s : State)
    (hc : s.hasContainer = true) :
    (s.drag.isDown = true → s.drag.hasMoved = false →
      onPointerUp c none now s =
        ({ s with drag := { s.drag with isDown := false } }, [])) ∧
    ((run c [Ev.pointerDown x t, Ev.pointerUp none now] s).scrollLeft =
        s.scrollLeft ∧
     settled (run c [Ev.pointerDown x t, Ev.pointerUp none now] s) ∧
     runEffects c [Ev.pointerDown x t, Ev.pointerUp none now] s = []) := by
  constructor
  · intro hd hm
    simp [onPointerUp, hd, hm, hc]
  · refine ⟨?_, ?_, ?_⟩ <;>
      simp [run, runEffects, step, onPointerDown, onPointerUp,
        stopActiveScroll, settled, hc]

/-- C2 witness: the no-op facts at a concrete tap (session open at offset
`100`, release at time `40`). -/
theorem tap_no_hit_noop_witness :
    onPointerUp cfg3 none 40 sDown100 =
      ({ sDown100 with drag := { sDown100.drag with isDown := false } }, []) ∧
    ((run cfg3 [Ev.pointerDown 0 0, Ev.pointerUp none 40] sDown100).scrollLeft =
        sDown100.scrollLeft ∧
     settled (run cfg3 [Ev.pointerDown 0 0, Ev.pointerUp none 40] sDown100) ∧
     runEffects cfg3 [Ev.pointerDown 0 0, Ev.pointerUp none 40] sDown100 = []) :=
  ⟨(tap_no_hit_noop cfg3 40 0 0 sDown100 rfl).1 rfl rfl,
   (tap_no_hit_noop cfg3 40 0 0 sDown100 rfl).2⟩

/-! ## C4: the momentum settle target -/

/-- A rest state at offset `0` whose open drag session has moved beyond
the threshold and carries release velocity `v`. -/
def sFling (v : ℚ) : State :=
  { restAt 0 with drag :=
      { DragState.init with isDown := true, hasMoved := true, velocity := v } }

/-- C4 (counterexample): the momentum target is NOT clamped to the valid
offset range.  With `scrollOffset = 0`, `stepExtent = 160` (3 items,
valid offsets `[0, 320]`) and `velocity = +1.0`, the code animates to
`round((0 - 1*200)/160)*160 = -160 < 0`.  The claim's own concrete case
(`velocity = -1.0` settling at `160`) does hold. -/
theorem momentum_target_not_clamped :
    (onPointerUp cfg3 none 100 (sFling 1)).1.anim = some
      { start := 0, change := -160, startTime := 100, duration := 800
        easing := .outCubic } ∧
    (-160 : ℚ) < 0 ∧
    (onPointerUp cfg3 none 100 (sFling (-1))).1.anim = some
      { start := 0, change := 160, startTime := 100, duration := 800
        easing := .outCubic } := by
  refine ⟨?_, by norm_num, ?_⟩ <;>
    · simp [onPointerUp, sFling, restAt, State.init, DragState.init,
        smoothScrollTo, stopActiveScroll, cfg3, Props.scrollStep,
        MOMENTUM_MULTIPLIER, jsRound]
      norm_num [Anim.mk.injEq]

/-- C4 (amended): on pointer-up with `hasMoved = true` and
`|velocity| > 0.1`, the code starts an ease-out-cubic settle animation
from the live offset whose landing point is
`round((scrollOffset - velocity * 200) / stepExtent) * stepExtent`, with
no clamping to the valid offset range; no callback is invoked. -/
theorem momentum_settle_target (c : Props) (hit : Option ℤ) (now : ℚ)
    (s : State) (hd : s.drag.isDown = true) (hc : s.hasContainer = true)
    (hm : s.drag.hasMoved = true) (hv : 1/10 < |s.drag.velocity|) :
    (∃ a : Anim, (onPointerUp c hit now s).1.anim = some a ∧
      a.start = s.scrollLeft ∧
      a.start + a.change =
        (jsRound ((s.scrollLeft - s.drag.velocity * MOMENTUM_MULTIPLIER) /
          c.scrollStep) : ℚ) * c.scrollStep ∧
      a.easing = .outCubic) ∧
    (onPointerUp c hit now s).2 = [] := by
  simp only [onPointerUp, hd, hc, hm]
  simp only [Bool.not_eq_true, gt_iff_lt, hv, if_true, decide_True,
    Bool.and_self, ite_true, ite_false, Bool.false_eq_true,
    smoothScrollTo, stopActiveScroll]
  refine ⟨⟨_, rfl, rfl, by ring, rfl⟩, rfl⟩

/-- C4 witness: the claim's own concrete momentum case — release at
offset `0` with velocity `-1.0` and `stepExtent = 160` settles at
`round(200/160)*160 = 160`. -/
theorem momentum_settle_target_witness :
    (∃ a : Anim, (onPointerUp cfg3 none 100 (sFling (-1))).1.anim = some a ∧
      a.start = (sFling (-1)).scrollLeft ∧
      a.start + a.change =
        (jsRound (((sFling (-1)).scrollLeft -
          (sFling (-1)).drag.velocity * MOMENTUM_MULTIPLIER) /
          cfg3.scrollStep) : ℚ) * cfg3.scrollStep ∧
      a.easing = .outCubic) ∧
    (onPointerUp cfg3 none 100 (sFling (-1))).2 = [] :=
  momentum_settle_target cfg3 none 100 (sFling (-1)) rfl rfl rfl
    (by norm_num [sFling, restAt, State.init, DragState.init])

/-! ## C5: navigation with an empty items list -/

/-- C5: with `items = []`, pressing Next is NOT a no-op.  At offset `0`
the code resolves `currentIndex = 0`, computes
`nextIndex = min(0+1, 0-1) = -1 ≠ 0`, and calls `selectCard(-1)`: it
starts a 600-unit animation towards `-1 * stepExtent = -160` and invokes
`onItemClick(items[-1])`, i.e. the callback receives JavaScript
`undefined` (modelled `Effect.notify none`), contradicting the declared
callback type `(item: AlbumItem) => void`.  ArrowRight delegates to the
same path; Previous genuinely is a no-op. -/
theorem scrollNext_empty_items_bug :
    (scrollNext cfgEmpty 0 (restAt 0)).2 = [Effect.notify none] ∧
    (scrollNext cfgEmpty 0 (restAt 0)).1.anim = some
      { start := 0, change := -160, startTime := 0, duration := 600
        easing := .outCubic } ∧
    onKeyDown cfgEmpty "ArrowRight" 0 (restAt 0) =
      scrollNext cfgEmpty 0 (restAt 0) ∧
    scrollPrev cfgEmpty 0 (restAt 0) = (restAt 0, []) := by
  refine ⟨?_, ?_, ?_, ?_⟩ <;>
    · simp [scrollNext, scrollPrev, onKeyDown, selectCard, smoothScrollTo,
        stopActiveScroll, getCurrentIndex, jsIndex, jsRound, cfgEmpty,
        Props.scrollStep, restAt, State.init]
      try norm_num

/-! ## C1: selection notification on drag release -/

/-- C1 (counterexample): a full drag gesture that releases into a
momentum settle invokes `onItemClick` ZERO times, not once.  From rest at
`0`: pointer-down at `x = 0, t = 0`, pointer-move to `x = -50, t = 20`
(beyond the threshold; velocity `-2.5`), pointer-up at `t = 40`.  The
release starts the momentum settle animation (towards `480`) but the
collected callback invocations of the whole gesture are `[]`. -/
theorem drag_release_no_notification :
    runEffects cfg3 [Ev.pointerDown 0 0, Ev.pointerMove (-50) 20,
      Ev.pointerUp none 40] (restAt 0) = [] ∧
    (run cfg3 [Ev.pointerDown 0 0, Ev.pointerMove (-50) 20,
      Ev.pointerUp none 40] (restAt 0)).drag.hasMoved = true ∧
    (run cfg3 [Ev.pointerDown 0 0, Ev.pointerMove (-50) 20,
      Ev.pointerUp none 40] (restAt 0)).anim = some
      { start := 50, change := 430, startTime := 40, duration := 800
        easing := .outCubic } := by
  refine ⟨?_, ?_, ?_⟩ <;>
    · simp [run, runEffects, step, onPointerDown, onPointerMove, onPointerUp,
        stopActiveScroll, smoothScrollTo, restAt, State.init, DragState.init,
        DRAG_THRESHOLD, MOMENTUM_MULTIPLIER, cfg3, Props.scrollStep, jsRound]
      try norm_num [abs_of_pos]

/-- C1 (amended): on every drag release (`hasMoved = true`, both the
momentum case and the snap case) the code starts an ease-out-cubic settle
animation whose landing point lies on the step grid, but the host's
item-selection callback is invoked ZERO times — `onPointerUp` only calls
`smoothScrollTo`; selection notifications happen only at mount, on tap
dispatch, and on button/keyboard navigation. -/
theorem drag_release_settles_without_notification (c : Props)
    (hit : Option ℤ) (now : ℚ) (s : State) (hd : s.drag.isDown = true)
    (hc : s.hasContainer = true) (hm : s.drag.hasMoved = true) :
    (onPointerUp c hit now s).2 = [] ∧
    ∃ a : Anim, (onPointerUp c hit now s).1.anim = some a ∧
      a.easing = .outCubic ∧ onGrid c (a.start + a.change) := by
  by_cases hv : (1/10 : ℚ) < |s.drag.velocity|
  · simp only [onPointerUp, hd, hc, hm]
    simp only [hv, Bool.not_eq_true, if_true, decide_True, Bool.and_self,
      ite_true, ite_false, Bool.false_eq_true, smoothScrollTo,
      stopActiveScroll, gt_iff_lt]
    exact ⟨rfl, _, rfl, rfl,
      ⟨jsRound ((s.scrollLeft - s.drag.velocity * MOMENTUM_MULTIPLIER) /
        c.scrollStep), by ring⟩⟩
  · simp only [onPointerUp, hd, hc, hm]
    simp only [hv, Bool.not_eq_true, if_true, decide_True, Bool.and_self,
      ite_true, ite_false, Bool.false_eq_true, smoothScrollTo,
      stopActiveScroll, gt_iff_lt]
    exact ⟨rfl, _, rfl, rfl,
      ⟨jsRound (s.scrollLeft / c.scrollStep), by ring⟩⟩

/-- C1 witness: a zero-velocity release (the snap case) at offset `0`
settles with no notification. -/
theorem drag_release_settles_without_notification_witness :
    (onPointerUp cfg3 none 40 (sFling 0)).2 = [] ∧
    ∃ a : Anim, (onPointerUp cfg3 none 40 (sFling 0)).1.anim = some a ∧
      a.easing = .outCubic ∧ onGrid cfg3 (a.start + a.change) :=
  drag_release_settles_without_notification cfg3 none 40 (sFling 0)
    rfl rfl rfl

/-! ## C9: animation exclusivity -/

/-- C9: starting a new animation with `smoothScrollTo` synchronously
replaces whatever animation was registered (the single `scrollRafRef`
slot then holds exactly the new one — in particular the old animation
never takes another frame step), the new animation starts from the
current live `scrollLeft` (not the superseded animation's original
start), and a frame fired any time `duration` after the new start lands
exactly at the NEW target and unregisters the animation: the system comes
to rest at the second call's target, never the first's. -/
theorem animation_exclusivity (t₂ d₂ tE now₂ : ℚ) (e₂ : Easing)
    (s : State) (hc : s.hasContainer = true) (hd : 0 < d₂)
    (ht : now₂ + d₂ ≤ tE) :
    (smoothScrollTo t₂ d₂ e₂ now₂ s).anim =
      some { start := s.scrollLeft, change := t₂ - s.scrollLeft
             startTime := now₂, duration := d₂, easing := e₂ } ∧
    frameStep tE (smoothScrollTo t₂ d₂ e₂ now₂ s) =
      { s with scrollLeft := t₂, anim := none } := by
  have h1 : smoothScrollTo t₂ d₂ e₂ now₂ s =
      { s with anim := some { start := s.scrollLeft, change := t₂ - s.scrollLeft
                              startTime := now₂, duration := d₂, easing := e₂ } } := by
    simp [smoothScrollTo, stopActiveScroll, hc]
  refine ⟨by rw [h1], ?_⟩
  rw [h1]
  unfold frameStep
  simp only
  have helapsed : d₂ ≤ tE - now₂ := by linarith
  have hmin : min ((tE - now₂) / d₂) 1 = 1 :=
    min_eq_right ((le_div_iff₀ hd).mpr (by linarith))
  have hnotlt : ¬ tE - now₂ < d₂ := not_lt.mpr helapsed
  rw [hmin, Easing.eval_one, if_neg hnotlt]
  congr 1
  ring

/-- C9 witness: with an animation towards `160` already mid-flight
(started at time `0`, sampled at time `300`, live offset `140`), a second
call towards `320` with duration `500` supersedes it; the frame at time
`900` lands exactly at `320`, not `160`. -/
theorem animation_exclusivity_witness :
    (smoothScrollTo 320 500 .outCubic 300
        (frameStep 300 (smoothScrollTo 160 600 .outCubic 0 (restAt 0)))).anim =
      some { start := (frameStep 300
              (smoothScrollTo 160 600 .outCubic 0 (restAt 0))).scrollLeft
             change := 320 - (frameStep 300
              (smoothScrollTo 160 600 .outCubic 0 (restAt 0))).scrollLeft
             startTime := 300, duration := 500, easing := .outCubic } ∧
    frameStep 900 (smoothScrollTo 320 500 .outCubic 300
        (frameStep 300 (smoothScrollTo 160 600 .outCubic 0 (restAt 0)))) =
      { frameStep 300 (smoothScrollTo 160 600 .outCubic 0 (restAt 0)) with
          scrollLeft := 320, anim := none } :=
  animation_exclusivity 320 500 900 300 .outCubic
    (frameStep 300 (smoothScrollTo 160 600 .outCubic 0 (restAt 0)))
    (by simp [frameStep, smoothScrollTo, stopActiveScroll, restAt, State.init]
        norm_num)
    (by norm_num) (by norm_num)

/-! ## C7: the rest invariant

The inductive invariant: in a settled state the offset lies on the step
grid, and any registered animation has a positive duration and a
step-grid landing point (`start + change`). -/

/-- Inductive invariant carried across events. -/
def Inv (c : Props) (s : State) : Prop :=
  (s.anim = none → s.drag.isDown = false → onGrid c s.scrollLeft) ∧
  (∀ a : Anim, s.anim = some a → onGrid c (a.start + a.change) ∧ 0 < a.duration)

/-- Traces whose pointer-ups always resolve a card under the release
point (a successful hit test). -/
def goodEv : Ev → Prop
  | .pointerUp hit _ => hit.isSome = true
  | _ => True

theorem inv_init (c : Props) (b : Bool) : Inv c (State.init b) :=
  ⟨fun _ _ => ⟨0, by simp [State.init]⟩, fun a ha => by simp [State.init] at ha⟩

theorem inv_smoothScrollTo_of_container {c : Props} {s : State}
    (hc : s.hasContainer = true) {target d : ℚ}
    (htgt : onGrid c target) (hd : 0 < d) (e : Easing) (now : ℚ) :
    Inv c (smoothScrollTo target d e now s) := by
  simp only [smoothScrollTo, stopActiveScroll, hc, if_true]
  constructor
  · intro h1
    exact absurd h1 (by simp)
  · rintro a ha
    simp only [Option.some.injEq] at ha
    subst ha
    refine ⟨?_, hd⟩
    have : s.scrollLeft + (target - s.scrollLeft) = target := by ring
    rw [this]
    exact htgt

theorem inv_smoothScrollTo {c : Props} {s : State} (h : Inv c s)
    {target d : ℚ} (htgt : onGrid c target) (hd : 0 < d) (e : Easing)
    (now : ℚ) : Inv c (smoothScrollTo target d e now s) := by
  by_cases hc : s.hasContainer = true
  · exact inv_smoothScrollTo_of_container hc htgt hd e now
  · simp only [smoothScrollTo, hc, Bool.not_eq_true] at *
    simp only [Bool.false_eq_true, if_false]
    exact h

theorem inv_selectCard {c : Props} {s : State} (h : Inv c s) (i : ℤ)
    (e : Easing) (now : ℚ) : Inv c (selectCard c i e now s).1 :=
  inv_smoothScrollTo h ⟨i, rfl⟩ (by norm_num) e now

theorem inv_scrollNext {c : Props} {s : State} (h : Inv c s) (now : ℚ) :
    Inv c (scrollNext c now s).1 := by
  simp only [scrollNext]
  split
  · exact inv_selectCard h _ _ now
  · exact h

theorem inv_scrollPrev {c : Props} {s : State} (h : Inv c s) (now : ℚ) :
    Inv c (scrollPrev c now s).1 := by
  simp only [scrollPrev]
  split
  · exact inv_selectCard h _ _ now
  · exact h

theorem inv_onKeyDown {c : Props} {s : State} (h : Inv c s) (key : String)
    (now : ℚ) : Inv c (onKeyDown c key now s).1 := by
  simp only [onKeyDown]
  split
  · exact inv_scrollPrev h now
  · split
    · exact inv_scrollNext h now
    · exact h

theorem inv_onPointerDown {c : Props} {s : State} (h : Inv c s)
    (x now : ℚ) : Inv c (onPointerDown x now s) := by
  simp only [onPointerDown, stopActiveScroll]
  split
  · constructor
    · intro _ h2
      exact absurd h2 (by simp)
    · intro a ha
      exact absurd ha (by simp)
  · exact h

theorem onPointerMove_anim (x now : ℚ) (s : State) :
    (onPointerMove x now s).anim = s.anim := by
  simp only [onPointerMove]
  split <;> rfl

theorem onPointerMove_isDown (x now : ℚ) (s : State) :
    (onPointerMove x now s).drag.isDown = s.drag.isDown := by
  simp only [onPointerMove]
  split
  · rename_i hcond
    split <;> split <;> rfl
  · rfl

theorem inv_onPointerMove {c : Props} {s : State} (h : Inv c s)
    (x now : ℚ) : Inv c (onPointerMove x now s) := by
  by_cases hcond : s.drag.isDown = true ∧ s.hasContainer = true
  · constructor
    · intro _ h2
      rw [onPointerMove_isDown, hcond.1] at h2
      exact absurd h2 (by simp)
    · intro a ha
      rw [onPointerMove_anim] at ha
      exact h.2 a ha
  · have : onPointerMove x now s = s := by
      simp only [onPointerMove]
      rw [if_neg]
      exact fun hh => hcond ⟨hh.1, hh.2⟩
    rw [this]
    exact h

theorem inv_frameStep {c : Props} {s : State} (h : Inv c s) (t : ℚ) :
    Inv c (frameStep t s) := by
  rcases ha : s.anim with _ | a
  · simp only [frameStep, ha]
    exact h
  · obtain ⟨hgrid, hdur⟩ := h.2 a ha
    simp only [frameStep, ha]
    split
    · constructor
      · intro h1
        exact absurd h1 (by simp [ha])
      · intro a' ha'
        simp only [ha] at ha'
        exact h.2 a' (by rw [ha, ha'])
    · rename_i hnlt
      constructor
      · intro _ _
        have hge : a.duration ≤ t - a.startTime := not_lt.mp hnlt
        have hmin : min ((t - a.startTime) / a.duration) 1 = 1 :=
          min_eq_right ((le_div_iff₀ hdur).mpr (by linarith))
        simp only [hmin, Easing.eval_one, mul_one]
        exact hgrid
      · intro a' ha'
        exact absurd ha' (by simp)

theorem inv_onPointerUp {c : Props} {s : State} (h : Inv c s)
    {hit : Option ℤ} (hhit : hit.isSome = true) (now : ℚ) :
    Inv c (onPointerUp c hit now s).1 := by
  by_cases hcond : s.drag.isDown = true ∧ s.hasContainer = true
  · obtain ⟨i, hi⟩ := Option.isSome_iff_exists.mp hhit
    subst hi
    by_cases hm : s.drag.hasMoved = true
    · simp only [onPointerUp, hcond.1, hcond.2, and_self, if_true, ite_true,
        hm, Bool.not_eq_true, Bool.true_eq_false, not_true, not_false_iff,
        if_false, ite_false]
      split
      · apply inv_smoothScrollTo_of_container
        · rfl
        · exact ⟨_, rfl⟩
        · exact lt_min (by norm_num) (lt_of_lt_of_le (by norm_num)
            (le_max_left _ _))
      · apply inv_smoothScrollTo_of_container
        · rfl
        · exact ⟨_, rfl⟩
        · norm_num
    · simp only [Bool.not_eq_true] at hm
      simp only [onPointerUp, hcond.1, hcond.2, and_self, if_true, ite_true,
        hm, Bool.not_eq_true, Bool.false_eq_true, if_false, ite_false,
        not_false_iff, handleCardClick, selectCard]
      apply inv_smoothScrollTo_of_container
      · rfl
      · exact ⟨i, rfl⟩
      · norm_num
  · simp only [onPointerUp]
    rw [if_neg (fun hh => hcond ⟨hh.1, hh.2⟩)]
    exact h

theorem inv_mount {c : Props} {s : State} (h : Inv c s) :
    Inv c (mount c s).1 := by
  simp only [mount]
  split
  · split
    · constructor
      · intro _ _
        exact ⟨_, rfl⟩
      · intro a ha
        exact h.2 a ha
    · exact h
  · exact h

theorem inv_step {c : Props} {s : State} (h : Inv c s) {e : Ev}
    (hg : goodEv e) : Inv c (step c s e).1 := by
  cases e with
  | mount => exact inv_mount h
  | pointerDown x t => exact inv_onPointerDown h x t
  | pointerMove x t => exact inv_onPointerMove h x t
  | pointerUp hit t => exact inv_onPointerUp h hg t
  | keyDown key t => exact inv_onKeyDown h key t
  | clickNext t => exact inv_scrollNext h t
  | clickPrev t => exact inv_scrollPrev h t
  | frame t => exact inv_frameStep h t

theorem inv_run {c : Props} {s : State} (h : Inv c s) {evs : List Ev}
    (hg : ∀ e ∈ evs, goodEv e) : Inv c (run c evs s) := by
  induction evs generalizing s with
  | nil => exact h
  | cons e rest ih =>
    simp only [run, List.foldl_cons]
    exact ih (inv_step h (hg e (by simp)))
      (fun e' he' => hg e' (by simp [he']))

/-- C7 (counterexample): the rest invariant is NOT preserved by every
operation sequence.  From the pristine mount state (offset `0`), the
gesture pointer-down at `x = 0`, pointer-move to `x = 5` (below the
10px threshold), pointer-up whose hit test finds no card ends settled at
`scrollOffset = -5`, which is no integer multiple of `stepExtent = 160`
(and a fortiori not `index * stepExtent` for a valid index). -/
theorem settled_off_grid_after_drift_tap :
    settled (run cfg3 [Ev.pointerDown 0 0, Ev.pointerMove 5 20,
      Ev.pointerUp none 40] (State.init true)) ∧
    (run cfg3 [Ev.pointerDown 0 0, Ev.pointerMove 5 20,
      Ev.pointerUp none 40] (State.init true)).scrollLeft = -5 ∧
    ¬ onGrid cfg3 (run cfg3 [Ev.pointerDown 0 0, Ev.pointerMove 5 20,
      Ev.pointerUp none 40] (State.init true)).scrollLeft := by
  have h5 : (run cfg3 [Ev.pointerDown 0 0, Ev.pointerMove 5 20,
      Ev.pointerUp none 40] (State.init true)).scrollLeft = -5 := by
    simp [run, step, onPointerDown, onPointerMove, onPointerUp,
      stopActiveScroll, State.init, DragState.init, DRAG_THRESHOLD]
    norm_num
  refine ⟨?_, h5, ?_⟩
  · simp [run, step, onPointerDown, onPointerMove, onPointerUp,
      stopActiveScroll, State.init, DragState.init, DRAG_THRESHOLD, settled]
    norm_num
  · rw [h5]
    rintro ⟨k, hk⟩
    have hk' : (-5 : ℚ) = (k : ℚ) * 160 := by
      rw [hk]
      norm_num [cfg3, Props.scrollStep]
    have hz : (-5 : ℤ) = k * 160 := by exact_mod_cast hk'
    omega

/-- C7 (amended): starting from the mount state, every operation sequence
(mount, clicks, key presses, button presses, drag gestures and animation
frames run to rest) in which each pointer-up's hit test succeeds leaves
every settled state with `scrollOffset = k * stepExtent` for some integer
`k` (not necessarily a valid index: momentum targets are unclamped).  A
pointer-up whose hit test fails after a sub-threshold drift breaks the
invariant, as the counterexample shows. -/
theorem settled_state_on_grid (c : Props) (b : Bool) (evs : List Ev)
    (hgood : ∀ e ∈ evs, goodEv e)
    (hsettle : settled (run c evs (State.init b))) :
    onGrid c (run c evs (State.init b)).scrollLeft :=
  (inv_run (inv_init c b) hgood).1 hsettle.1 hsettle.2

/-- C7 witness: the trace mount → Next button → completing frame settles
on the grid (`scrollOffset = 160 = 1 * stepExtent`). -/
theorem settled_state_on_grid_witness :
    onGrid cfg3 (run cfg3 [Ev.mount, Ev.clickNext 0, Ev.frame 700]
      (State.init true)).scrollLeft :=
  settled_state_on_grid cfg3 true [Ev.mount, Ev.clickNext 0, Ev.frame 700]
    (by intro e he; fin_cases he <;> trivial)
    (by constructor <;>
        · simp [run, step, mount, scrollNext, selectCard, smoothScrollTo,
            stopActiveScroll, getCurrentIndex, frameStep, State.init,
            DragState.init, cfg3, Props.scrollStep, jsRound, jsIndex,
            Easing.eval]
          try norm_num)

end Coverflow
